import Mathlib

/-!
Verification of the agent-team-system orchestration core
(`src/agent-team-system/core/`): the autonomy controller
(`autonomy_controller.py`), the versioned state manager
(`state_manager.py`) and the orchestrator (`orchestrator.py`).

The Python classes are shallowly embedded as Lean structures with explicit
state passing: every method becomes a pure function from the old state (plus
arguments) to the new state (plus result).  Filesystem directories are
association lists from relative path to file content; `datetime.utcnow()`
is modelled by a logical clock that ticks at each call site; the sha256
content hash is modelled by the hashed byte stream itself (the concatenation
of the file contents in sorted-by-path order, exactly the bytes the Python
code feeds to the hasher), so hash equality coincides with equality of the
hashed bytes.
-/

/-! ## Association-list helpers (model of Python `dict`) -/

/-- Python `d.get(k, default)` over an association list (first binding wins,
like a `dict` that never holds duplicate keys). -/
def lookupD {α : Type} (l : List (String × α)) (k : String) (d : α) : α :=
  match l.lookup k with
  | some v => v
  | none => d

/-- Python `d[k] = v`: replace the binding if the key is present, otherwise
append a fresh binding. -/
def setAssoc {α : Type} (l : List (String × α)) (k : String) (v : α) :
    List (String × α) :=
  if (l.lookup k).isSome then
    l.map (fun kv => if kv.1 = k then (kv.1, v) else kv)
  else
    l ++ [(k, v)]

/-- Python `set.add` on a list-encoded set. -/
def addToSet {α : Type} [DecidableEq α] (l : List α) (x : α) : List α :=
  if x ∈ l then l else l ++ [x]

theorem lookup_map_values {α β : Type} (f : String → α → β)
    (l : List (String × α)) (k : String) :
    (l.map (fun kv => (kv.1, f kv.1 kv.2))).lookup k = (l.lookup k).map (f k) := by
  induction l with
  | nil => rfl
  | cons hd tl ih =>
    by_cases h : k = hd.1
    · simp [List.lookup, h]
    · simp [List.lookup, beq_false_of_ne h, ih]

/-! ## Autonomy controller (`core/autonomy_controller.py`) -/

/-- `OperationCategory` enum. -/
inductive OperationCategory where
  | read_file
  | write_file
  | delete_file
  | execute_command
  | network_request
  | database_query
  | database_write
  | git_commit
  | git_push
  | install_package
  | modify_config
  | create_backup
  | restore_backup
deriving DecidableEq, Repr

/-- `OperationRisk` enum. -/
inductive OperationRisk where
  | safe
  | low
  | medium
  | high
  | critical
deriving DecidableEq, Repr

/-- `AutonomyController.operation_risks`: the static risk table built in
`__init__`.  (The table is total over the enum in the source, so it is a
function here; `dict.get(op, MEDIUM)` therefore never falls back.) -/
def operation_risks : OperationCategory → OperationRisk
  | .read_file => .safe
  | .write_file => .low
  | .delete_file => .high
  | .execute_command => .medium
  | .network_request => .medium
  | .database_query => .safe
  | .database_write => .medium
  | .git_commit => .low
  | .git_push => .high
  | .install_package => .medium
  | .modify_config => .medium
  | .create_backup => .safe
  | .restore_backup => .high

/-- The mutable fields of `AutonomyController`.  `approved_categories` maps an
autonomy-level name to the set (list without duplicates) of pre-approved
categories; `config_file` holds the serialized configuration written by
`_save_config`; `clock` models `datetime.utcnow()` for approval ids. -/
structure AutonomyController where
  autonomy_level : String
  approved_categories : List (String × List OperationCategory)
  always_require_approval : List OperationCategory
  config_file : String
  clock : Nat
deriving DecidableEq, Repr

/-- Serialization of one category list for `_save_config` (`json.dump` of the
value lists; the concrete rendering is immaterial, only that it is written). -/
def encodeCategories (l : List OperationCategory) : String :=
  String.intercalate "," (l.map (fun c => reprStr c))

/-- Rendering of the whole configuration document written by `_save_config`
(`json.dump` of the config dictionary). -/
def encodeConfig (c : AutonomyController) : String :=
  "level=" ++ c.autonomy_level ++ ";approved=" ++
    String.intercalate ";"
      (c.approved_categories.map (fun kv => kv.1 ++ ":" ++ encodeCategories kv.2)) ++
    ";always=" ++ encodeCategories c.always_require_approval ++
    ";last_updated=" ++ toString c.clock

/-- `AutonomyController._save_config`: persist the configuration to
`config_file`. -/
def save_config (c : AutonomyController) : AutonomyController :=
  { c with config_file := encodeConfig c, clock := c.clock + 1 }

/-- The default controller built by `AutonomyController.__init__` when no
configuration file exists (`_load_config` then writes the defaults out). -/
def default_controller : AutonomyController :=
  save_config
    { autonomy_level := "semi_auto",
      approved_categories :=
        [("manual", []),
         ("semi_auto",
           [.read_file, .write_file, .execute_command, .database_query,
            .create_backup]),
         ("full_auto",
           [.read_file, .write_file, .delete_file, .execute_command,
            .network_request, .database_query, .database_write, .git_commit,
            .create_backup, .modify_config])],
      always_require_approval := [.git_push, .restore_backup],
      config_file := "",
      clock := 0 }

/-- Values a context dictionary can hold (enough of Python's data model to
decide truthiness of `context` and of `context.get("force_approval")`). -/
inductive CtxVal where
  | cstr : String → CtxVal
  | cint : Int → CtxVal
  | cbool : Bool → CtxVal
  | cnone : CtxVal
deriving DecidableEq, Repr

/-- Python truthiness of a context value. -/
def ctxTruthy : CtxVal → Bool
  | .cstr s => s ≠ ""
  | .cint n => n ≠ 0
  | .cbool b => b
  | .cnone => false

/-- Lower-case a string (Python `str.lower`), character by character. -/
def strLower (s : String) : String := String.mk (s.data.map Char.toLower)

/-- Does `pat` occur as a contiguous run inside `l`?  (Python `pat in path`.) -/
def charsHaveSub (pat : List Char) : List Char → Bool
  | [] => pat.isEmpty
  | c :: cs => (pat.isPrefixOf (c :: cs) : Bool) || charsHaveSub pat cs

/-- `AutonomyController._is_protected_path`. -/
def is_protected_path (path : String) : Bool :=
  let protected_patterns := [".git/", "config/", ".env", "secrets", "credentials"]
  let path_lower := strLower path
  protected_patterns.any (fun pattern => charsHaveSub pattern.data path_lower.data)

/-- `context.get("path", "")` — the source then treats the value as a string
(the callers only ever store strings under `"path"`). -/
def ctxPath (ctx : List (String × CtxVal)) : String :=
  match ctx.lookup "path" with
  | some (.cstr s) => s
  | _ => ""

/-- `AutonomyController.requires_approval(operation, context)`.  `context` is
`Option`al (default `None`); a present-but-empty dictionary is falsy, so the
whole context-sensitive block is skipped for it just as for `None`. -/
def requires_approval (c : AutonomyController) (operation : OperationCategory)
    (context : Option (List (String × CtxVal))) : Bool :=
  if operation ∈ c.always_require_approval then true
  else if c.autonomy_level = "manual" then true
  else
    let approved := lookupD c.approved_categories c.autonomy_level []
    if operation ∉ approved then true
    else
      match context with
      | none => false
      | some ctx =>
        if ctx.isEmpty then false
        else
          let risk := operation_risks operation
          if c.autonomy_level = "semi_auto" ∧ (risk = .high ∨ risk = .critical) then
            true
          else if ctxTruthy ((ctx.lookup "force_approval").getD .cnone) then true
          else if (operation = .write_file ∨ operation = .delete_file) ∧
              is_protected_path (ctxPath ctx) then true
          else false

/-- `AutonomyController.approve_operation(operation, reason, expiry)`: add the
category to the approved set of the *current* level (if that level has an
entry) and persist; returns the approval id. -/
def approve_operation (c : AutonomyController) (operation : OperationCategory)
    (_reason : String) (_expiry : Option String) : String × AutonomyController :=
  let c1 :=
    if (c.approved_categories.lookup c.autonomy_level).isSome then
      { c with approved_categories :=
          c.approved_categories.map (fun kv =>
            (kv.1, if kv.1 = c.autonomy_level then addToSet kv.2 operation else kv.2)) }
    else c
  let c2 := save_config c1
  ("approval_" ++ toString c.clock, c2)

/-- `AutonomyController.revoke_approval(operation)`: discard the category from
the approved set of *every* level, then persist. -/
def revoke_approval (c : AutonomyController) (operation : OperationCategory) :
    AutonomyController :=
  save_config
    { c with approved_categories :=
        c.approved_categories.map (fun kv =>
          (kv.1, kv.2.filter (fun x => x ≠ operation))) }

/-! ## State manager (`core/state_manager.py`) -/

/-- Contents of a directory of `*.json` files: relative path ↦ file bytes. -/
abbrev Files := List (String × String)

/-- One entry of the version history (`version_entry` in `create_snapshot`).
`timestamp` is the logical clock at creation; `state_hash` is the modelled
sha256 digest (see `hashFiles`); `snapshot_dir` names the backup directory. -/
structure VersionEntry where
  version : String
  label : Option String
  timestamp : Nat
  increment_type : String
  state_hash : String
  file_count : Nat
  metadata : List (String × String)
  snapshot_dir : String
deriving DecidableEq, Repr

/-- The mutable fields of `StateManager`.  `stateFiles` is the content of
`state_dir` (every file in it is a `*.json` state file, including the version
index `versions.json` itself, which lives in `state_dir`); `snapshots` maps a
backup-directory name (`"v<version>"`) to its contents; a missing key models
a directory that does not exist on disk. -/
structure StateManager where
  stateFiles : Files
  snapshots : List (String × Files)
  current_version : String
  versions : List VersionEntry
  clock : Nat
deriving DecidableEq, Repr

/-- A fresh manager over an empty workspace: `versions.json` does not exist
yet, so `_load_current_version` returns `"1.0.0"` and `_load_version_history`
returns `[]`. -/
def freshStateManager : StateManager :=
  { stateFiles := [], snapshots := [], current_version := "1.0.0",
    versions := [], clock := 0 }

/-- Insertion sort of files by path, using the total order on strings; this is
`sorted(state_files)` in `_calculate_state_hash`. -/
def insertByPath (x : String × String) : Files → Files
  | [] => [x]
  | y :: ys =>
    match compare x.1 y.1 with
    | .gt => y :: insertByPath x ys
    | _ => x :: y :: ys

/-- Files sorted by path (`sorted(state_files)`). -/
def sortByPath (fs : Files) : Files := fs.foldr insertByPath []

/-- `StateManager._calculate_state_hash`: the sha256 digest of the
concatenation of all file contents in sorted-by-path order.  The digest is
modelled by the hashed byte stream itself, so two digests are equal exactly
when the concatenated streams are equal. -/
def hashFiles (fs : Files) : String :=
  String.join ((sortByPath fs).map (fun kv => kv.2))

/-- Digits of a natural number, most significant first, by structural
recursion on a fuel argument (`fuel ≥ n` suffices). -/
def natDigitsAux : Nat → Nat → List Char
  | 0, _ => []
  | fuel + 1, n =>
    if n = 0 then []
    else natDigitsAux fuel (n / 10) ++ [Char.ofNat (48 + n % 10)]

/-- Decimal rendering of a natural number (used for version components and
logical timestamps; kernel-reducible, unlike `Nat.repr`'s byte machinery is
opaque to `decide` it is not — this one evaluates). -/
def natStr (n : Nat) : String :=
  if n = 0 then "0" else String.mk (natDigitsAux n n)

/-- Parse a decimal string back to a number (`int(...)` in
`_increment_version`); malformed components parse as 0, a case the claims
never exercise (Python would raise there). -/
def charsToNat : List Char → Nat → Nat
  | [], acc => acc
  | c :: cs, acc => charsToNat cs (acc * 10 + (c.toNat - 48))

/-- Split a character list at `'.'` separators (`version.split('.')`). -/
def splitDots : List Char → List (List Char)
  | [] => [[]]
  | c :: cs =>
    let rest := splitDots cs
    if c = '.' then [] :: rest
    else
      match rest with
      | [] => [[c]]
      | r :: rs => (c :: r) :: rs

/-- `major, minor, patch = map(int, version.split('.'))`. -/
def parseVersion (v : String) : Nat × Nat × Nat :=
  match (splitDots v.data).map (fun cs => charsToNat cs 0) with
  | [a, b, c] => (a, b, c)
  | _ => (0, 0, 0)

/-- `StateManager._increment_version`. -/
def increment_version (version : String) (increment : String) : String :=
  let p := parseVersion version
  let major := p.1
  let minor := p.2.1
  let patch := p.2.2
  if increment = "major" then
    natStr (major + 1) ++ ".0.0"
  else if increment = "minor" then
    natStr major ++ "." ++ natStr (minor + 1) ++ ".0"
  else
    natStr major ++ "." ++ natStr minor ++ "." ++ natStr (patch + 1)

/-- Copy every file of `src` into directory `dst` (`shutil.copy2` per file):
existing files at the same relative path are overwritten, files of `dst` not
present in `src` survive. -/
def overwriteInto (dst src : Files) : Files :=
  src.foldl (fun acc kv => setAssoc acc kv.1 kv.2) dst

/-- Content of `versions.json` as written by `_save_version_history`
(`json.dump` of current version, full history and `last_updated`). -/
def encodeVersionEntry (e : VersionEntry) : String :=
  "ver(" ++ e.version ++ "|" ++ (match e.label with
    | some l => l
    | none => "null") ++ "|" ++ natStr e.timestamp ++ "|" ++ e.increment_type ++
    "|" ++ e.state_hash ++ "|" ++ natStr e.file_count ++ "|" ++ e.snapshot_dir ++ ")"

/-- Rendering of the whole version-index document. -/
def encodeVersionsJson (cur : String) (vers : List VersionEntry) (ts : Nat) :
    String :=
  "current_version=" ++ cur ++ ";versions=" ++
    String.intercalate "," (vers.map encodeVersionEntry) ++
    ";last_updated=" ++ natStr ts

/-- `StateManager._save_version_history`: rewrite `versions.json` inside the
state directory (note: the index file is itself one of the state files). -/
def save_version_history (s : StateManager) : StateManager :=
  { s with
    stateFiles := setAssoc s.stateFiles "versions.json"
      (encodeVersionsJson s.current_version s.versions s.clock),
    clock := s.clock + 1 }

/-- `StateManager.create_snapshot(label, increment, metadata)`: increment the
version off the current one, copy every state file (`_collect_state_files`
returns all `*.json` under `state_dir`, i.e. all of `stateFiles`) into the
version-stamped backup directory (`mkdir(exist_ok=True)`, so an existing
directory of the same name is reused and its files overwritten), record the
version entry and persist the index.  Returns the new version number. -/
def create_snapshot (s : StateManager) (label : Option String)
    (increment : String) (metadata : List (String × String)) :
    String × StateManager :=
  let new_version := increment_version s.current_version increment
  let state_files := s.stateFiles
  let dirName := "v" ++ new_version
  let oldDir := lookupD s.snapshots dirName []
  let snapshots1 := setAssoc s.snapshots dirName (overwriteInto oldDir state_files)
  let state_hash := hashFiles state_files
  let entry : VersionEntry :=
    { version := new_version, label := label, timestamp := s.clock,
      increment_type := increment, state_hash := state_hash,
      file_count := state_files.length, metadata := metadata,
      snapshot_dir := dirName }
  let s1 :=
    { s with
      snapshots := snapshots1,
      versions := s.versions ++ [entry],
      current_version := new_version,
      clock := s.clock + 1 }
  (new_version, save_version_history s1)

/-- `StateManager.restore_snapshot(version)`: fail (returning the state
untouched) if the version is unknown or its backup directory is missing;
otherwise take an automatic safety snapshot of the current state, delete all
current state files, copy the target snapshot's files back (reading the
directory *after* the safety snapshot ran, as the source does), set the
current version and persist the index. -/
def restore_snapshot (s : StateManager) (version : String) :
    Bool × StateManager :=
  match s.versions.find? (fun v => v.version = version) with
  | none => (false, s)
  | some entry =>
    if (s.snapshots.lookup entry.snapshot_dir).isSome then
      let s1 := (create_snapshot s (some ("Before restore to v" ++ version))
        "patch" []).2
      let dirFiles := lookupD s1.snapshots entry.snapshot_dir []
      let s2 := { s1 with
                  stateFiles := overwriteInto [] dirFiles,
                  current_version := version }
      (true, save_version_history s2)
    else (false, s)

/-- Stable insertion (descending by timestamp) used to model Python's stable
`sorted(..., key=timestamp, reverse=True)`. -/
def insertByTimeDesc (x : VersionEntry) : List VersionEntry → List VersionEntry
  | [] => [x]
  | y :: ys => if x.timestamp ≥ y.timestamp then x :: y :: ys
               else y :: insertByTimeDesc x ys

/-- `sorted(self.versions, key=lambda v: v["timestamp"], reverse=True)`. -/
def sortByTimeDesc (l : List VersionEntry) : List VersionEntry :=
  l.foldr insertByTimeDesc []

/-- `StateManager.cleanup_old_snapshots(keep_count)`: keep the `keep_count`
most-recent-by-timestamp version entries, `shutil.rmtree` the backup
directories of all others, replace the history with the kept entries and
persist. -/
def cleanup_old_snapshots (s : StateManager) (keep_count : Nat) : StateManager :=
  if s.versions.length ≤ keep_count then s
  else
    let sorted_versions := sortByTimeDesc s.versions
    let keep_versions := sorted_versions.take keep_count
    let remove_versions := sorted_versions.drop keep_count
    let snapshots1 := remove_versions.foldl
      (fun acc v => acc.filter (fun kv => kv.1 ≠ v.snapshot_dir)) s.snapshots
    save_version_history
      { s with versions := keep_versions, snapshots := snapshots1 }

/-- An external component (orchestrator, agent runtime) writing a state
document into the state directory; the state manager itself never writes
state files other than `versions.json`. -/
def write_state_file (s : StateManager) (path content : String) : StateManager :=
  { s with stateFiles := setAssoc s.stateFiles path content }

/-! ## Orchestrator (`core/orchestrator.py`, enums from `core/agent_base.py`) -/

/-- `AutonomyLevel` enum (orchestrator.py). -/
inductive AutonomyLevel where
  | manual
  | semi_auto
  | full_auto
deriving DecidableEq, Repr

/-- String value of an `AutonomyLevel` member. -/
def AutonomyLevel.value : AutonomyLevel → String
  | .manual => "manual"
  | .semi_auto => "semi_auto"
  | .full_auto => "full_auto"

/-- `TaskStatus` enum. -/
inductive TaskStatus where
  | queued
  | waiting_approval
  | approved
  | running
  | completed
  | failed
  | cancelled
deriving DecidableEq, Repr

/-- String value of a `TaskStatus` member. -/
def TaskStatus.value : TaskStatus → String
  | .queued => "queued"
  | .waiting_approval => "waiting_approval"
  | .approved => "approved"
  | .running => "running"
  | .completed => "completed"
  | .failed => "failed"
  | .cancelled => "cancelled"

/-- `AgentPriority` enum (agent_base.py): LOW = 1 … CRITICAL = 4. -/
inductive AgentPriority where
  | low
  | medium
  | high
  | critical
deriving DecidableEq, Repr

/-- Integer value of an `AgentPriority` member (`priority.value`). -/
def AgentPriority.value : AgentPriority → Nat
  | .low => 1
  | .medium => 2
  | .high => 3
  | .critical => 4

/-- Python values as far as `json.dump` is concerned.  `penum` is a raw enum
member (`TaskStatus`, `AgentPriority`, …) carrying its rendering; the default
`json` encoder rejects exactly those. -/
inductive PyVal where
  | pstr : String → PyVal
  | pint : Int → PyVal
  | pbool : Bool → PyVal
  | pnone : PyVal
  | plist : List PyVal → PyVal
  | pdict : List (String × PyVal) → PyVal
  | penum : String → PyVal

mutual

/-- Whether `json.dump` accepts the value (raises `TypeError` otherwise). -/
def json_serializable : PyVal → Bool
  | .pstr _ => true
  | .pint _ => true
  | .pbool _ => true
  | .pnone => true
  | .plist l => jsonSerializableList l
  | .pdict d => jsonSerializableDict d
  | .penum _ => false

/-- All elements of a list are serializable. -/
def jsonSerializableList : List PyVal → Bool
  | [] => true
  | v :: vs => json_serializable v && jsonSerializableList vs

/-- All values of a dictionary are serializable. -/
def jsonSerializableDict : List (String × PyVal) → Bool
  | [] => true
  | kv :: vs => json_serializable kv.2 && jsonSerializableDict vs

end

/-- The task wrapper dictionary built by `submit_task`.  `status` and
`priority` hold enum members; timestamps are logical-clock values. -/
structure TaskWrapper where
  task_id : String
  agent_name : String
  task : List (String × PyVal)
  priority : AgentPriority
  dependencies : List String
  requires_approval : Bool
  status : TaskStatus
  submitted_at : Nat
  started_at : Option Nat
  completed_at : Option Nat
  result : PyVal

/-- Render an optional timestamp for serialization. -/
def optNatToPy : Option Nat → PyVal
  | none => .pnone
  | some n => .pstr (natStr n)

/-- The wrapper as the Python dictionary it is: `status` and `priority` are
stored as enum members (`penum`), which is what `json.dump` chokes on. -/
def wrapperToPy (w : TaskWrapper) : PyVal :=
  .pdict [("task_id", .pstr w.task_id),
          ("agent_name", .pstr w.agent_name),
          ("task", .pdict w.task),
          ("priority", .penum (natStr w.priority.value)),
          ("dependencies", .plist (w.dependencies.map PyVal.pstr)),
          ("requires_approval", .pbool w.requires_approval),
          ("status", .penum w.status.value),
          ("submitted_at", .pstr (natStr w.submitted_at)),
          ("started_at", optNatToPy w.started_at),
          ("completed_at", optNatToPy w.completed_at),
          ("result", w.result)]

/-- Python `l[-n:]`. -/
def lastN {α : Type} (n : Nat) (l : List α) : List α := l.drop (l.length - n)

/-- The mutable fields of `AgentOrchestrator`.  `task_queue` holds the
`PriorityQueue` contents as `(priority value, wrapper)` pairs in insertion
order; popping takes the smallest key (Python's min-heap).  `agents` maps
agent id to agent name.  `uuid_counter` models `uuid.uuid4()` as a fresh-name
source; `dispatched` is a history variable recording, for specification
purposes only, each `_execute_task` invocation in order. -/
structure Orchestrator where
  autonomy_level : AutonomyLevel
  agents : List (String × String)
  task_queue : List (Nat × TaskWrapper)
  pending_approval : List TaskWrapper
  active_tasks : List (String × TaskWrapper)
  completed_tasks : List TaskWrapper
  task_graph : List (String × List String)
  uuid_counter : Nat
  clock : Nat
  dispatched : List String

/-- An orchestrator as built by `__init__` over a fresh workspace (no saved
state to load), with the given registered agents. -/
def initial_orchestrator (level : AutonomyLevel)
    (agents : List (String × String)) : Orchestrator :=
  { autonomy_level := level, agents := agents, task_queue := [],
    pending_approval := [], active_tasks := [], completed_tasks := [],
    task_graph := [], uuid_counter := 0, clock := 0, dispatched := [] }

/-- The `state_data` dictionary assembled by `AgentOrchestrator._save_state`
(the task queue itself is *not* part of it; pending approvals, active tasks
and the last 100 completed tasks are, as raw wrapper dictionaries). -/
def state_data (o : Orchestrator) : PyVal :=
  .pdict [("orchestrator_id", .pstr "orchestrator"),
          ("autonomy_level", .pstr o.autonomy_level.value),
          ("agents", .pdict (o.agents.map (fun a =>
            (a.1, PyVal.pdict [("name", .pstr a.2), ("state", .pstr "idle"),
                               ("type", .pstr "BaseAgent")])))),
          ("active_tasks", .pdict (o.active_tasks.map (fun kv =>
            (kv.1, wrapperToPy kv.2)))),
          ("completed_tasks", .plist ((lastN 100 o.completed_tasks).map wrapperToPy)),
          ("pending_approval", .plist (o.pending_approval.map wrapperToPy)),
          ("timestamp", .pstr (natStr o.clock))]

/-- `AgentOrchestrator._save_state`: `json.dump(state_data, f)` either writes
the file or raises `TypeError` on a non-serializable value.  The written
bytes are not tracked, only whether the dump succeeds. -/
def save_state (o : Orchestrator) : Except String Orchestrator :=
  if json_serializable (state_data o) then .ok { o with clock := o.clock + 1 }
  else .error "TypeError: Object of type TaskStatus is not JSON serializable"

/-- Task id taken from the caller's dictionary.  Callers only ever store
string ids; a non-string value would be carried through as the id object in
Python and is rendered here. -/
def pyIdString : PyVal → String
  | .pstr s => s
  | .pint n => toString n
  | .pbool b => toString b
  | .pnone => "None"
  | .plist _ => "list"
  | .pdict _ => "dict"
  | .penum s => s

/-- `AgentOrchestrator.submit_task(agent_name, task, priority, dependencies,
requires_approval)`.  The fresh-id default argument of `task.get` is
evaluated unconditionally, so the uuid counter always advances.  Returns the
task id, or the `TypeError` that `_save_state` raises. -/
def submit_task (o : Orchestrator) (agent_name : String)
    (task : List (String × PyVal)) (priority : AgentPriority)
    (dependencies : List String) (req_approval : Bool) :
    Except String (String × Orchestrator) :=
  let task_id := match task.lookup "id" with
    | some v => pyIdString v
    | none => "task_" ++ natStr o.uuid_counter
  let task1 := setAssoc task "id" (.pstr task_id)
  let requires_approval1 := req_approval || (o.autonomy_level = .manual)
  let w : TaskWrapper :=
    { task_id := task_id, agent_name := agent_name, task := task1,
      priority := priority, dependencies := dependencies,
      requires_approval := requires_approval1, status := .queued,
      submitted_at := o.clock, started_at := none, completed_at := none,
      result := .pnone }
  let o1 :=
    { o with
      uuid_counter := o.uuid_counter + 1,
      clock := o.clock + 1,
      task_graph := if dependencies.isEmpty then o.task_graph
        else setAssoc o.task_graph task_id dependencies }
  let o2 :=
    if requires_approval1 then
      { o1 with
        pending_approval :=
          o1.pending_approval ++ [{ w with status := .waiting_approval }] }
    else
      { o1 with task_queue := o1.task_queue ++ [(priority.value, w)] }
  (save_state o2).map (fun o3 => (task_id, o3))

/-- Ids of completed tasks whose recorded status is exactly `COMPLETED`
(the set `_dependencies_met` checks against). -/
def completedOk (o : Orchestrator) : List String :=
  (o.completed_tasks.filter (fun t => t.status = .completed)).map
    (fun t => t.task_id)

/-- `AgentOrchestrator._dependencies_met(task_id)`. -/
def dependencies_met (o : Orchestrator) (task_id : String) : Bool :=
  match o.task_graph.lookup task_id with
  | none => true
  | some deps => deps.all (fun d => (completedOk o).contains d)

/-- Pop the entry with the smallest priority key (leftmost among equal keys)
from the queue: Python's `PriorityQueue.get` on `(priority, wrapper)` pairs.
(Two entries with *equal* keys would make the real heap compare the wrapper
dictionaries and raise `TypeError`; no theorem below relies on tie order.) -/
def popMin : List (Nat × TaskWrapper) →
    Option ((Nat × TaskWrapper) × List (Nat × TaskWrapper))
  | [] => none
  | x :: xs =>
    match popMin xs with
    | none => some (x, [])
    | some (y, rest) => if x.1 ≤ y.1 then some (x, xs) else some (y, x :: rest)

/-- `AgentOrchestrator._execute_task(task_wrapper)`.  `agent_success` is the
oracle for the agent's `execute_task` outcome (`result["status"] ==
"success"`); an agent exception and an error result both land the task in
`FAILED`, which is all the state records.  The `_save_state` call in the
`finally` block may itself raise, but `_worker_loop` catches and logs it, so
its failure does not alter the task bookkeeping modelled here. -/
def execute_task (o : Orchestrator) (w : TaskWrapper) (agent_success : Bool) :
    Orchestrator :=
  let o0 := { o with dispatched := o.dispatched ++ [w.task_id] }
  match o0.agents.find? (fun a => a.2 = w.agent_name) with
  | none =>
    let w1 := { w with
                status := .failed,
                result := .pdict [("error",
                  .pstr ("Agent not found: " ++ w.agent_name))] }
    { o0 with completed_tasks := o0.completed_tasks ++ [w1] }
  | some _ =>
    let w1 := { w with status := .running, started_at := some o0.clock }
    let oa := { o0 with
                active_tasks := setAssoc o0.active_tasks w.task_id w1,
                clock := o0.clock + 1 }
    let w2 := { w1 with
                result := .pdict [("status",
                  .pstr (if agent_success then "success" else "error"))],
                status := if agent_success then .completed else .failed,
                completed_at := some oa.clock }
    { oa with
      clock := oa.clock + 1,
      active_tasks := oa.active_tasks.filter (fun kv => kv.1 ≠ w.task_id),
      completed_tasks := oa.completed_tasks ++ [w2] }

/-- One iteration of `AgentOrchestrator._worker_loop` when the queue is
non-empty: pop the minimum-key entry; if its dependencies are unmet, re-queue
it with the key demoted by one and continue; otherwise execute it. -/
def worker_step (o : Orchestrator) (agent_success : Bool) : Orchestrator :=
  match popMin o.task_queue with
  | none => o
  | some ((priority, w), rest) =>
    let o1 := { o with task_queue := rest }
    if dependencies_met o1 w.task_id then execute_task o1 w agent_success
    else { o1 with task_queue := rest ++ [(priority + 1, w)] }

/-- A finite run of the worker loop; the oracle list supplies one agent
outcome per iteration. -/
def worker_run (o : Orchestrator) (oracles : List Bool) : Orchestrator :=
  oracles.foldl worker_step o

/-! ## Claims about the autonomy controller (C4, C6) -/

theorem revoke_approval_sets (c : AutonomyController) (operation : OperationCategory)
    (level : String) :
    lookupD (revoke_approval c operation).approved_categories level []
      = (lookupD c.approved_categories level []).filter (fun x => x ≠ operation) := by
  have h := lookup_map_values (fun _ v => v.filter (fun x => x ≠ operation))
    c.approved_categories level
  simp only [revoke_approval, save_config, lookupD]
  rw [h]
  cases c.approved_categories.lookup level <;> simp

/-- C4 (amended): `approve_operation` adds the category only to the current
level's approved set, leaving every other level's set unchanged, while
`revoke_approval` removes the category from the approved set of *every*
autonomy level, not just the current one. -/
theorem approve_and_revoke_scope (c : AutonomyController)
    (operation : OperationCategory) (level : String) (reason : String)
    (expiry : Option String) (h : level ≠ c.autonomy_level) :
    lookupD (revoke_approval c operation).approved_categories level []
      = (lookupD c.approved_categories level []).filter (fun x => x ≠ operation)
    ∧ lookupD (approve_operation c operation reason expiry).2.approved_categories
        level []
      = lookupD c.approved_categories level [] := by
  refine ⟨revoke_approval_sets c operation level, ?_⟩
  have hmap := lookup_map_values
    (fun k v => if k = c.autonomy_level then addToSet v operation else v)
    c.approved_categories level
  simp only [approve_operation, save_config, lookupD]
  by_cases hs : (c.approved_categories.lookup c.autonomy_level).isSome
  · simp only [hs, if_true]
    rw [hmap]
    cases c.approved_categories.lookup level <;> simp [h]
  · simp [hs]

/-- C4 witness: at the default controller (current level `semi_auto`),
instantiating the frame theorem at level `full_auto`. -/
theorem approve_and_revoke_scope_witness :
    ("full_auto" ≠ default_controller.autonomy_level
    ∧ lookupD (revoke_approval default_controller .read_file).approved_categories
        "full_auto" []
      = (lookupD default_controller.approved_categories "full_auto" []).filter
          (fun x => x ≠ OperationCategory.read_file)
    ∧ lookupD (approve_operation default_controller .read_file "r" none).2.approved_categories
        "full_auto" []
      = lookupD default_controller.approved_categories "full_auto" []) := by
  refine ⟨by decide, ?_, ?_⟩
  · exact (approve_and_revoke_scope default_controller .read_file "full_auto" "r" none
      (by decide)).1
  · exact (approve_and_revoke_scope default_controller .read_file "full_auto" "r" none
      (by decide)).2

/-- C4 counterexample: the claim says `revoke_approval` touches only the
current level's approved set; but with current level `semi_auto`, revoking
`READ_FILE` also removes it from the `full_auto` set. -/
theorem revoke_mutates_other_levels :
    default_controller.autonomy_level = "semi_auto"
    ∧ OperationCategory.read_file
        ∈ lookupD default_controller.approved_categories "full_auto" []
    ∧ OperationCategory.read_file
        ∉ lookupD (revoke_approval default_controller .read_file).approved_categories
            "full_auto" [] := by
  refine ⟨rfl, by decide, by decide⟩

/-- C6 (amended): in `semi_auto` mode a high/critical-risk category in the
approved set requires approval for every *truthy* (non-empty) context; the
check sits inside `if context:`, so with no context — or an empty context
dictionary — it is skipped (see the counterexample). -/
theorem semi_auto_high_risk_context_true (c : AutonomyController)
    (operation : OperationCategory) (ctx : List (String × CtxVal))
    (hlevel : c.autonomy_level = "semi_auto")
    (happroved : operation ∈ lookupD c.approved_categories "semi_auto" [])
    (hrisk : operation_risks operation = .high ∨ operation_risks operation = .critical)
    (hctx : ctx ≠ []) :
    requires_approval c operation (some ctx) = true := by
  cases ctx with
  | nil => exact absurd rfl hctx
  | cons hd tl =>
    rcases hrisk with hr | hr <;>
      by_cases h1 : operation ∈ c.always_require_approval <;>
        simp [requires_approval, hlevel, happroved, hr, h1]

/-- C6 witness: after manually approving `DELETE_FILE` (static risk high) at
the default `semi_auto` level, any non-empty context forces approval. -/
theorem semi_auto_high_risk_context_true_witness :
    ((approve_operation default_controller .delete_file "elevate" none).2.autonomy_level
        = "semi_auto"
    ∧ OperationCategory.delete_file ∈ lookupD
        (approve_operation default_controller .delete_file "elevate" none).2.approved_categories
        "semi_auto" []
    ∧ operation_risks .delete_file = .high
    ∧ requires_approval (approve_operation default_controller .delete_file "elevate" none).2
        .delete_file (some [("path", .cstr "notes.txt")]) = true) := by
  refine ⟨by decide, by decide, rfl, ?_⟩
  exact semi_auto_high_risk_context_true _ _ _ (by decide) (by decide)
    (Or.inl rfl) (by decide)

/-- C6 counterexample: with `DELETE_FILE` (risk high) approved for the
current `semi_auto` level, `requires_approval` returns `false` when no
context is supplied (and likewise for an empty, hence falsy, context
dictionary), contradicting the claim's "for every context argument,
including when no context is supplied". -/
theorem high_risk_no_context_skips_check :
    ((approve_operation default_controller .delete_file "elevate" none).2.autonomy_level
        = "semi_auto"
    ∧ OperationCategory.delete_file ∈ lookupD
        (approve_operation default_controller .delete_file "elevate" none).2.approved_categories
        "semi_auto" []
    ∧ operation_risks .delete_file = .high
    ∧ requires_approval (approve_operation default_controller .delete_file "elevate" none).2
        .delete_file none = false
    ∧ requires_approval (approve_operation default_controller .delete_file "elevate" none).2
        .delete_file (some []) = false) := by
  refine ⟨by decide, by decide, rfl, by decide, by decide⟩

/-! ## Claims about the state manager (C3, C5, C7, C9) -/

/-- C9: `restore_snapshot` on an unknown version, or on a version whose
backing snapshot directory is missing, returns `False` and mutates nothing:
no safety snapshot, no file change, no version change. -/
theorem restore_failure_no_mutation (s : StateManager) (version : String)
    (h : s.versions.find? (fun v => v.version = version) = none
       ∨ ∃ e, s.versions.find? (fun v => v.version = version) = some e
           ∧ s.snapshots.lookup e.snapshot_dir = none) :
    restore_snapshot s version = (false, s) := by
  rcases h with h | ⟨e, he, hd⟩
  · simp [restore_snapshot, h]
  · simp [restore_snapshot, he, hd]

/-- A version entry whose backup directory was never created (for the C9
witness's missing-directory branch). -/
def orphan_entry : VersionEntry :=
  { version := "1.0.1", label := none, timestamp := 0,
    increment_type := "patch", state_hash := "", file_count := 0,
    metadata := [], snapshot_dir := "v1.0.1" }

/-- A manager whose history mentions `orphan_entry` but whose backup
directory is gone. -/
def orphan_manager : StateManager :=
  { freshStateManager with versions := [orphan_entry] }

/-- C9 witness: an unknown version on a fresh manager, and a known version
with a missing backing directory, both fail without mutation. -/
theorem restore_failure_no_mutation_witness :
    restore_snapshot freshStateManager "9.9.9" = (false, freshStateManager)
    ∧ restore_snapshot orphan_manager "1.0.1" = (false, orphan_manager) :=
  ⟨restore_failure_no_mutation freshStateManager "9.9.9" (Or.inl (by decide)),
   restore_failure_no_mutation orphan_manager "1.0.1"
     (Or.inr ⟨orphan_entry, by decide, by decide⟩)⟩

/-- A state directory holding one application state file. -/
def sm_app : StateManager := write_state_file freshStateManager "app.json" "A"

/-- Run for C5: three snapshots, a restore back to the first version (which
adds a fourth, newest, safety snapshot and makes `1.0.1` current), then
`cleanup_old_snapshots(1)`. -/
def c5_run : StateManager :=
  cleanup_old_snapshots
    ((restore_snapshot
      ((create_snapshot
        ((create_snapshot
          ((create_snapshot sm_app none "patch" []).2) none "patch" []).2)
        none "patch" []).2) "1.0.1").2) 1

/-- C5: `cleanup_old_snapshots(keep)` keeps only the `keep` most recent
entries by timestamp with no protection for the current version: after a
restore to `1.0.1`, cleanup with `keep = 1` retains only the newest safety
snapshot and deletes the entry and backup directory of `1.0.1` even though
it is the current version. -/
theorem cleanup_deletes_current_version :
    c5_run.current_version = "1.0.1"
    ∧ c5_run.versions.find? (fun e => e.version = "1.0.1") = none
    ∧ c5_run.snapshots.lookup "v1.0.1" = none :=
  ⟨rfl, by decide, by decide⟩

/-- State for C7 holding snapshots `v1.0.1` (content "A") and `v1.0.2`
(content "B"). -/
def c7_mid : StateManager :=
  (create_snapshot
    (write_state_file (create_snapshot sm_app none "patch" []).2 "app.json" "B")
    none "patch" []).2

/-- The same run after restoring `1.0.1` and creating one more snapshot. -/
def c7_end : StateManager :=
  (create_snapshot ((restore_snapshot c7_mid "1.0.1").2) none "patch" []).2

/-- C7: snapshots are not immutable.  After restoring `1.0.1` the current
version rolls back, so the next `create_snapshot` re-derives version `1.0.2`
and overwrites the files stored in the existing `v1.0.2` backup directory
(`mkdir(exist_ok=True)` plus `shutil.copy2`): the `app.json` stored in
snapshot `v1.0.2` changes from "B" to "A". -/
theorem snapshot_overwritten_after_restore :
    (create_snapshot ((restore_snapshot c7_mid "1.0.1").2) none "patch" []).1
      = "1.0.2"
    ∧ (lookupD c7_mid.snapshots "v1.0.2" []).lookup "app.json" = some "B"
    ∧ (lookupD c7_end.snapshots "v1.0.2" []).lookup "app.json" = some "A" :=
  ⟨rfl, by decide, by decide⟩

/-- State after the first snapshot of the C3 run (version `1.0.1`, recorded
content hash "A": at creation time the only state file was `app.json`,
`versions.json` not yet existing). -/
def c3_s1 : StateManager := (create_snapshot sm_app none "patch" []).2

/-- The C3 run after restoring `1.0.1` and immediately snapshotting again. -/
def c3_after : StateManager :=
  (create_snapshot ((restore_snapshot c3_s1 "1.0.1").2) none "patch" []).2

/-- C3 counterexample: restoring `1.0.1` and immediately creating a snapshot
records a content hash different from the one recorded for `1.0.1`: the
version-index file `versions.json` lives in the state directory, is included
in the hashed file set, and is rewritten by the restore, so the hashes of the
two snapshots differ even though no other state changed in between. -/
theorem restore_roundtrip_hash_differs :
    (restore_snapshot c3_s1 "1.0.1").1 = true
    ∧ (c3_s1.versions.find? (fun e => e.version = "1.0.1")).map
        (fun e => e.state_hash) = some "A"
    ∧ (c3_after.versions.getLast?).map (fun e => e.state_hash) ≠ some "A" :=
  ⟨rfl, by decide, by decide⟩

/-! ## Claims about the orchestrator (C1, C2, C8, C10) -/

theorem wrapperToPy_not_serializable (w : TaskWrapper) :
    json_serializable (wrapperToPy w) = false := by
  simp [wrapperToPy, json_serializable, jsonSerializableDict]

theorem jsonSerializableList_false_of_mem (l : List PyVal) (v : PyVal)
    (hv : v ∈ l) (h : json_serializable v = false) :
    jsonSerializableList l = false := by
  induction l with
  | nil => cases hv
  | cons x xs ih =>
    cases hv with
    | head => simp [jsonSerializableList, h]
    | tail _ hv => simp [jsonSerializableList, ih hv]

theorem state_data_pending_not_serializable (o : Orchestrator) (w : TaskWrapper)
    (h : w ∈ o.pending_approval) : json_serializable (state_data o) = false := by
  have h1 : jsonSerializableList (o.pending_approval.map wrapperToPy) = false :=
    jsonSerializableList_false_of_mem _ (wrapperToPy w)
      (List.mem_map_of_mem _ h) (wrapperToPy_not_serializable w)
  simp [state_data, json_serializable, jsonSerializableDict, h1]

theorem save_state_error_of_pending (o : Orchestrator)
    (h : o.pending_approval ≠ []) :
    save_state o
      = .error "TypeError: Object of type TaskStatus is not JSON serializable" := by
  obtain ⟨w, hw⟩ : ∃ w, w ∈ o.pending_approval :=
    List.exists_mem_of_ne_nil o.pending_approval h
  simp [save_state, state_data_pending_not_serializable o w hw]

/-- C2: whenever the approval path of `submit_task` is taken — the caller
passes `requires_approval = True` or the autonomy level is manual — the task
wrapper (which carries `TaskStatus`/`AgentPriority` enum members) is appended
to `pending_approval` and the subsequent `_save_state` hands it to
`json.dump`, which raises `TypeError`; `submit_task` therefore raises instead
of returning the task id. -/
theorem submit_approval_path_raises (o : Orchestrator) (agent_name : String)
    (task : List (String × PyVal)) (priority : AgentPriority)
    (dependencies : List String) (req_approval : Bool)
    (h : req_approval = true ∨ o.autonomy_level = .manual) :
    submit_task o agent_name task priority dependencies req_approval
      = .error "TypeError: Object of type TaskStatus is not JSON serializable" := by
  have hra : (req_approval || decide (o.autonomy_level = AutonomyLevel.manual))
      = true := by
    rcases h with h | h <;> simp [h]
  simp only [submit_task, hra, if_true]
  rw [save_state_error_of_pending _ (by simp)]
  rfl

/-- C2 witness: a concrete approval-path submission raises. -/
theorem submit_approval_path_raises_witness :
    (true = true ∨ (initial_orchestrator .semi_auto []).autonomy_level
        = AutonomyLevel.manual)
    ∧ submit_task (initial_orchestrator .semi_auto []) "agent"
        [("name", .pstr "build")] .high [] true
      = .error "TypeError: Object of type TaskStatus is not JSON serializable" :=
  ⟨Or.inl rfl,
   submit_approval_path_raises (initial_orchestrator .semi_auto []) "agent"
     [("name", .pstr "build")] .high [] true (Or.inl rfl)⟩

set_option maxHeartbeats 2000000 in
/-- C1: the spec requires critical-before-high dispatch, but the queue is a
Python `PriorityQueue` — a *min*-heap — keyed by `priority.value` with
`CRITICAL = 4 > HIGH = 3`, so the worker pops the *smallest* value first:
submitting T1 (high) then T2 (critical) with no dependencies dispatches
T1 before T2, the reverse of the claimed order. -/
theorem dispatch_order_inverts_priority :
    ((submit_task (initial_orchestrator .semi_auto [("a1", "agent")]) "agent"
        [("id", .pstr "t1")] .high [] false).bind (fun p1 =>
      (submit_task p1.2 "agent" [("id", .pstr "t2")] .critical [] false).map
        (fun p2 => (worker_run p2.2 [true, true]).dispatched)))
      = .ok ["t1", "t2"]
    ∧ (["t1", "t2"] : List String) ≠ ["t2", "t1"] :=
  ⟨rfl, by decide⟩

set_option maxHeartbeats 2000000 in
/-- C8 counterexample: `submit_task` reuses a caller-supplied `"id"` value
verbatim, so two distinct submissions both return `"x"` — task ids are not
unique across a process lifetime when callers supply ids. -/
theorem submit_reuses_caller_id :
    ((submit_task (initial_orchestrator .semi_auto []) "agent"
        [("id", .pstr "x")] .medium [] false).bind (fun p1 =>
      (submit_task p1.2 "agent" [("id", .pstr "x")] .medium [] false).map
        (fun p2 => (p1.1, p2.1)))) = .ok ("x", "x") := rfl

theorem execute_task_dispatched (o : Orchestrator) (w : TaskWrapper) (b : Bool) :
    (execute_task o w b).dispatched = o.dispatched ++ [w.task_id] := by
  simp only [execute_task]
  split <;> rfl

theorem execute_task_graph (o : Orchestrator) (w : TaskWrapper) (b : Bool) :
    (execute_task o w b).task_graph = o.task_graph := by
  simp only [execute_task]
  split <;> rfl

theorem worker_step_graph (o : Orchestrator) (b : Bool) :
    (worker_step o b).task_graph = o.task_graph := by
  simp only [worker_step]
  split
  · rfl
  · split
    · rw [execute_task_graph]
    · rfl

theorem worker_step_dispatch_requires_deps (o : Orchestrator) (b : Bool)
    (t : String) (hnot : t ∉ o.dispatched)
    (ht : t ∈ (worker_step o b).dispatched) :
    ∃ p w rest, popMin o.task_queue = some ((p, w), rest) ∧ w.task_id = t
      ∧ dependencies_met { o with task_queue := rest } t = true := by
  rw [worker_step] at ht
  cases hpop : popMin o.task_queue with
  | none => simp only [hpop] at ht; exact absurd ht hnot
  | some pr =>
    obtain ⟨⟨p, w⟩, rest⟩ := pr
    simp only [hpop] at ht
    by_cases hdm : dependencies_met { o with task_queue := rest } w.task_id = true
    · rw [if_pos hdm, execute_task_dispatched] at ht
      rcases List.mem_append.mp ht with hmem | hmem
      · exact absurd hmem hnot
      · have hwt : t = w.task_id := by simpa using hmem
        exact ⟨p, w, rest, rfl, hwt.symm, by rwa [← hwt] at hdm⟩
    · rw [if_neg hdm] at ht
      exact absurd ht hnot

/-- C10: a task `t` whose dependency set (as recorded in the task graph)
contains an id `d` that is never in the completed-with-status-`COMPLETED`
set at any point of a worker-loop run is never dispatched during that run,
whatever the agents' outcomes. -/
theorem blocked_task_never_dispatched (o : Orchestrator) (oracles : List Bool)
    (t d : String) (hdep : d ∈ lookupD o.task_graph t [])
    (hnever : ∀ i, i ≤ oracles.length →
      d ∉ completedOk (worker_run o (oracles.take i)))
    (hnot : t ∉ o.dispatched) :
    t ∉ (worker_run o oracles).dispatched := by
  induction oracles generalizing o with
  | nil => exact hnot
  | cons b bs ih =>
    have h0 : d ∉ completedOk o := by
      have := hnever 0 (Nat.zero_le _)
      simpa [worker_run] using this
    have hnot1 : t ∉ (worker_step o b).dispatched := by
      intro hmem
      obtain ⟨p, w, rest, hpop, hwt, hdm⟩ :=
        worker_step_dispatch_requires_deps o b t hnot hmem
      obtain ⟨deps, hl, hd⟩ : ∃ deps, o.task_graph.lookup t = some deps ∧ d ∈ deps := by
        cases hl : o.task_graph.lookup t with
        | none => rw [lookupD, hl] at hdep; cases hdep
        | some deps => exact ⟨deps, rfl, by rw [lookupD, hl] at hdep; exact hdep⟩
      rw [dependencies_met] at hdm
      simp only [hl] at hdm
      have hc := List.all_eq_true.mp hdm d hd
      have : d ∈ completedOk o := List.elem_iff.mp (by simpa using hc)
      exact absurd this h0
    have hdep1 : d ∈ lookupD (worker_step o b).task_graph t [] := by
      rw [worker_step_graph]; exact hdep
    have hnever1 : ∀ i, i ≤ bs.length →
        d ∉ completedOk (worker_run (worker_step o b) (bs.take i)) := by
      intro i hi
      have := hnever (i + 1) (by simpa using Nat.succ_le_succ hi)
      simpa [List.take_succ_cons, worker_run] using this
    have := ih (worker_step o b) hdep1 hnever1 hnot1
    simpa [worker_run] using this

/-- Orchestrator holding a queued task `t9` that depends on the never
submitted, hence never completed, id `missing` (for the C10 witness). -/
def c10_o : Orchestrator :=
  match submit_task (initial_orchestrator .semi_auto [("a1", "agent")]) "agent"
      [("id", .pstr "t9")] .high ["missing"] false with
  | .ok p => p.2
  | .error _ => initial_orchestrator .semi_auto [("a1", "agent")]

set_option maxHeartbeats 2000000 in
/-- C10 witness: over a two-iteration worker run, `t9` is never dispatched
because `missing` never completes. -/
theorem blocked_task_never_dispatched_witness :
    ("missing" ∈ lookupD c10_o.task_graph "t9" [])
    ∧ (∀ i, i ≤ ([true, true] : List Bool).length →
        "missing" ∉ completedOk (worker_run c10_o ([true, true].take i)))
    ∧ ("t9" ∉ c10_o.dispatched)
    ∧ "t9" ∉ (worker_run c10_o [true, true]).dispatched := by
  refine ⟨by decide, by decide, by decide, ?_⟩
  exact blocked_task_never_dispatched c10_o [true, true] "t9" "missing"
    (by decide) (by decide) (by decide)

/-- Numeric value of a decimal digit character. -/
def digitVal (c : Char) : Nat := c.toNat - 48

/-- Value of a most-significant-first decimal digit string. -/
def digitsVal (l : List Char) : Nat :=
  l.foldl (fun acc c => acc * 10 + digitVal c) 0

theorem digitVal_ofNat (d : Nat) (h : d < 10) :
    digitVal (Char.ofNat (48 + d)) = d := by
  interval_cases d <;> decide

theorem digitsVal_natDigitsAux (fuel : Nat) :
    ∀ n, n ≤ fuel → digitsVal (natDigitsAux fuel n) = n := by
  induction fuel with
  | zero =>
    intro n h
    have hz : n = 0 := Nat.le_zero.mp h
    subst hz
    rfl
  | succ fuel ih =>
    intro n h
    rw [natDigitsAux]
    by_cases hz : n = 0
    · subst hz; simp [digitsVal]
    · rw [if_neg hz]
      have hlt : n / 10 < n := Nat.div_lt_self (Nat.pos_of_ne_zero hz) (by norm_num)
      have hle : n / 10 ≤ fuel := by omega
      have hrec := ih (n / 10) hle
      rw [digitsVal] at hrec ⊢
      rw [List.foldl_append, hrec]
      simp only [List.foldl_cons, List.foldl_nil]
      rw [digitVal_ofNat (n % 10) (Nat.mod_lt n (by norm_num))]
      omega

theorem natStr_injective (m n : Nat) (h : natStr m = natStr n) : m = n := by
  rw [natStr, natStr] at h
  by_cases hm : m = 0 <;> by_cases hn : n = 0
  · rw [hm, hn]
  · exfalso
    rw [if_pos hm, if_neg hn] at h
    have hdata : ['0'] = natDigitsAux n n := by
      have := congrArg String.data h
      simpa using this
    have hv := digitsVal_natDigitsAux n n (Nat.le_refl n)
    rw [← hdata] at hv
    have : (0 : Nat) = n := by simpa [digitsVal, digitVal] using hv
    exact hn this.symm
  · exfalso
    rw [if_neg hm, if_pos hn] at h
    have hdata : natDigitsAux m m = ['0'] := by
      have := congrArg String.data h
      simpa using this
    have hv := digitsVal_natDigitsAux m m (Nat.le_refl m)
    rw [hdata] at hv
    have : (0 : Nat) = m := by simpa [digitsVal, digitVal] using hv
    exact hm this.symm
  · rw [if_neg hm, if_neg hn] at h
    have hdata : natDigitsAux m m = natDigitsAux n n := by
      have := congrArg String.data h
      simpa using this
    have h1 := digitsVal_natDigitsAux m m (Nat.le_refl m)
    have h2 := digitsVal_natDigitsAux n n (Nat.le_refl n)
    rw [hdata, h2] at h1
    exact h1.symm

theorem string_append_left_cancel (s t u : String) (h : s ++ t = s ++ u) :
    t = u := by
  have hd : s.data ++ t.data = s.data ++ u.data := by
    have := congrArg String.data h
    simpa [String.data_append] using this
  have h2 := List.append_cancel_left hd
  cases t; cases u; exact congrArg String.mk h2

theorem save_state_map_ok (x : Orchestrator) (a tid : String) (o' : Orchestrator)
    (h : (save_state x).map (fun o3 => (a, o3)) = .ok (tid, o')) :
    tid = a ∧ o'.uuid_counter = x.uuid_counter := by
  rw [save_state] at h
  split at h
  · simp only [Except.map, Except.ok.injEq, Prod.mk.injEq] at h
    obtain ⟨h1, h2⟩ := h
    exact ⟨h1.symm, by rw [← h2]⟩
  · simp [Except.map] at h

theorem submit_task_fresh_id (o o' : Orchestrator) (an : String)
    (task : List (String × PyVal)) (p : AgentPriority) (d : List String)
    (r : Bool) (tid : String) (hid : task.lookup "id" = none)
    (hs : submit_task o an task p d r = .ok (tid, o')) :
    tid = "task_" ++ natStr o.uuid_counter
    ∧ o'.uuid_counter = o.uuid_counter + 1 := by
  simp only [submit_task, hid] at hs
  obtain ⟨h1, h2⟩ := save_state_map_ok _ _ _ _ hs
  refine ⟨h1, ?_⟩
  rw [h2]
  split <;> rfl

/-- C8 (amended): task ids returned by `submit_task` are pairwise distinct
when the callers' task dictionaries carry no `"id"` key — the fresh-name
source always yields an unused id — whereas a caller-supplied `"id"` is
returned verbatim and may repeat (see the counterexample). -/
theorem submit_fresh_ids_distinct (o o1 o2 : Orchestrator) (an1 an2 : String)
    (t1 t2 : List (String × PyVal)) (p1 p2 : AgentPriority)
    (d1 d2 : List String) (r1 r2 : Bool) (id1 id2 : String)
    (h1 : t1.lookup "id" = none) (h2 : t2.lookup "id" = none)
    (hs1 : submit_task o an1 t1 p1 d1 r1 = .ok (id1, o1))
    (hs2 : submit_task o1 an2 t2 p2 d2 r2 = .ok (id2, o2)) :
    id1 ≠ id2 := by
  obtain ⟨hid1, hu1⟩ := submit_task_fresh_id o o1 an1 t1 p1 d1 r1 id1 h1 hs1
  obtain ⟨hid2, hu2⟩ := submit_task_fresh_id o1 o2 an2 t2 p2 d2 r2 id2 h2 hs2
  rw [hid1, hid2, hu1]
  intro heq
  have hne := natStr_injective _ _ (string_append_left_cancel _ _ _ heq)
  omega

/-- Empty starting orchestrator for the C8 witness. -/
def c8_o0 : Orchestrator := initial_orchestrator .semi_auto []

/-- State after the first id-less submission. -/
def c8_o1 : Orchestrator :=
  match submit_task c8_o0 "agent" [] .medium [] false with
  | .ok p => p.2
  | .error _ => c8_o0

/-- State after the second id-less submission. -/
def c8_o2 : Orchestrator :=
  match submit_task c8_o1 "agent" [] .medium [] false with
  | .ok p => p.2
  | .error _ => c8_o0

set_option maxHeartbeats 2000000 in
/-- C8 witness: two concrete submissions without caller-supplied ids return
the distinct ids `task_0` and `task_1`. -/
theorem submit_fresh_ids_distinct_witness :
    (([] : List (String × PyVal)).lookup "id" = none)
    ∧ submit_task c8_o0 "agent" [] .medium [] false = .ok ("task_0", c8_o1)
    ∧ submit_task c8_o1 "agent" [] .medium [] false = .ok ("task_1", c8_o2)
    ∧ "task_0" ≠ "task_1" := by
  refine ⟨rfl, rfl, rfl, ?_⟩
  exact submit_fresh_ids_distinct c8_o0 c8_o1 c8_o2 "agent" "agent" [] []
    .medium .medium [] [] false false "task_0" "task_1" rfl rfl rfl rfl

/-! ## The round-trip property of restore (C3, amended) -/

/-- The state files other than the version-index file `versions.json`. -/
def nonIndexFiles (fs : Files) : Files :=
  fs.filter (fun kv => kv.1 ≠ "versions.json")

theorem lookup_map_set {α : Type} (l : List (String × α)) (k : String) (v : α) :
    (l.map (fun kv => if kv.1 = k then (kv.1, v) else kv)).lookup k
      = (l.lookup k).map (fun _ => v) := by
  induction l with
  | nil => rfl
  | cons hd tl ih =>
    obtain ⟨hk, hv⟩ := hd
    by_cases h : hk = k
    · subst h
      have hhead : (if (hk, hv).1 = hk then ((hk, hv).1, v) else (hk, hv)) = (hk, v) := by
        simp
      rw [List.map_cons, hhead]
      simp [List.lookup]
    · have hhead : (if (hk, hv).1 = k then ((hk, hv).1, v) else (hk, hv)) = (hk, hv) := by
        simp [h]
      rw [List.map_cons, hhead]
      simp [List.lookup, beq_false_of_ne (fun hc => h hc.symm), ih]

theorem lookup_map_set_ne {α : Type} (l : List (String × α)) (k k' : String)
    (v : α) (h : k' ≠ k) :
    (l.map (fun kv => if kv.1 = k then (kv.1, v) else kv)).lookup k'
      = l.lookup k' := by
  induction l with
  | nil => rfl
  | cons hd tl ih =>
    obtain ⟨hk, hv⟩ := hd
    by_cases hh : hk = k
    · subst hh
      have hhead : (if (hk, hv).1 = hk then ((hk, hv).1, v) else (hk, hv)) = (hk, v) := by
        simp
      rw [List.map_cons, hhead]
      simp [List.lookup, beq_false_of_ne h, ih]
    · have hhead : (if (hk, hv).1 = k then ((hk, hv).1, v) else (hk, hv)) = (hk, hv) := by
        simp [hh]
      rw [List.map_cons, hhead]
      by_cases h3 : k' = hk
      · subst h3
        simp [List.lookup]
      · simp [List.lookup, beq_false_of_ne h3, ih]

theorem lookup_setAssoc_self {α : Type} (l : List (String × α)) (k : String)
    (v : α) : (setAssoc l k v).lookup k = some v := by
  rw [setAssoc]
  split
  · next hsome =>
    rw [lookup_map_set]
    obtain ⟨w, hw⟩ := Option.isSome_iff_exists.mp hsome
    rw [hw]
    rfl
  · next hnone =>
    rw [List.lookup_append]
    rw [Option.not_isSome_iff_eq_none.mp hnone]
    simp [List.lookup]

theorem lookup_setAssoc_ne {α : Type} (l : List (String × α)) (k k' : String)
    (v : α) (h : k' ≠ k) : (setAssoc l k v).lookup k' = l.lookup k' := by
  rw [setAssoc]
  split
  · exact lookup_map_set_ne l k k' v h
  · rw [List.lookup_append]
    simp [List.lookup, beq_false_of_ne h]

theorem lookupD_of_none {α : Type} (l : List (String × α)) (k : String) (d : α)
    (h : l.lookup k = none) : lookupD l k d = d := by
  simp [lookupD, h]

theorem lookupD_of_some {α : Type} (l : List (String × α)) (k : String) (d : α)
    (v : α) (h : l.lookup k = some v) : lookupD l k d = v := by
  simp [lookupD, h]

theorem lookupD_setAssoc_ne {α : Type} (l : List (String × α)) (k k' : String)
    (v d : α) (h : k' ≠ k) : lookupD (setAssoc l k v) k' d = lookupD l k' d := by
  rw [lookupD, lookupD, lookup_setAssoc_ne l k k' v h]

theorem overwriteInto_of_disjoint (fs : Files) :
    ∀ acc : Files, (∀ q ∈ fs, acc.lookup q.1 = none) →
      (fs.map Prod.fst).Nodup → overwriteInto acc fs = acc ++ fs := by
  induction fs with
  | nil => intro acc _ _; simp [overwriteInto]
  | cons kv rest ih =>
    intro acc hdisj hnodup
    have hkv : acc.lookup kv.1 = none := hdisj kv (List.mem_cons_self kv rest)
    have hstep : setAssoc acc kv.1 kv.2 = acc ++ [kv] := by
      rw [setAssoc, if_neg (by rw [hkv]; simp)]
    have hdisj2 : ∀ q ∈ rest, (acc ++ [kv]).lookup q.1 = none := by
      intro q hq
      rw [List.lookup_append, hdisj q (List.mem_cons_of_mem kv hq)]
      have hne : q.1 ≠ kv.1 := by
        intro he
        have : kv.1 ∈ rest.map Prod.fst := by
          rw [← he]; exact List.mem_map_of_mem Prod.fst hq
        exact (List.nodup_cons.mp hnodup).1 this
      simp [List.lookup, beq_false_of_ne hne]
    have hrec := ih (acc ++ [kv]) hdisj2 (List.nodup_cons.mp hnodup).2
    calc overwriteInto acc (kv :: rest)
        = overwriteInto (setAssoc acc kv.1 kv.2) rest := rfl
      _ = overwriteInto (acc ++ [kv]) rest := by rw [hstep]
      _ = (acc ++ [kv]) ++ rest := hrec
      _ = acc ++ (kv :: rest) := by simp

theorem overwriteInto_nil (fs : Files) (h : (fs.map Prod.fst).Nodup) :
    overwriteInto [] fs = fs := by
  simpa using overwriteInto_of_disjoint fs [] (by intro q _; rfl) h

theorem filter_nonindex_map_set (fs : Files) (c : String) :
    (fs.map (fun kv => if kv.1 = "versions.json" then (kv.1, c) else kv)).filter
      (fun kv => kv.1 ≠ "versions.json")
    = fs.filter (fun kv => kv.1 ≠ "versions.json") := by
  induction fs with
  | nil => rfl
  | cons kv rest ih =>
    obtain ⟨k, v⟩ := kv
    by_cases h : k = "versions.json"
    · subst h
      simpa [List.filter_cons] using ih
    · simpa [List.filter_cons, h] using ih

theorem nonIndexFiles_setAssoc (fs : Files) (c : String) :
    nonIndexFiles (setAssoc fs "versions.json" c) = nonIndexFiles fs := by
  rw [setAssoc]
  split
  · exact filter_nonindex_map_set fs c
  · rw [nonIndexFiles, nonIndexFiles, List.filter_append]
    simp [List.filter]

theorem create_snapshot_snapshots (s : StateManager) (label : Option String)
    (inc : String) (md : List (String × String)) :
    (create_snapshot s label inc md).2.snapshots
      = setAssoc s.snapshots ("v" ++ increment_version s.current_version inc)
          (overwriteInto
            (lookupD s.snapshots
              ("v" ++ increment_version s.current_version inc) [])
            s.stateFiles) := rfl

theorem create_snapshot_current_version (s : StateManager)
    (label : Option String) (inc : String) (md : List (String × String)) :
    (create_snapshot s label inc md).2.current_version
      = increment_version s.current_version inc := rfl

theorem create_snapshot_versions (s : StateManager) (label : Option String)
    (inc : String) (md : List (String × String)) :
    (create_snapshot s label inc md).2.versions
      = s.versions ++
        [{ version := increment_version s.current_version inc, label := label,
           timestamp := s.clock, increment_type := inc,
           state_hash := hashFiles s.stateFiles,
           file_count := s.stateFiles.length, metadata := md,
           snapshot_dir := "v" ++ increment_version s.current_version inc }] := rfl

theorem create_snapshot_last_entry (s : StateManager) (label : Option String)
    (inc : String) (md : List (String × String)) :
    ((create_snapshot s label inc md).2.versions.getLast?).map
      (fun e => e.state_hash) = some (hashFiles s.stateFiles) := by
  rw [create_snapshot_versions, List.getLast?_concat]
  rfl

set_option maxHeartbeats 1000000 in
/-- C3 (amended): snapshot state `s0` into a fresh backup directory as
version `v1`, then `restore_snapshot v1` with nothing changed in between.
The restore succeeds and reproduces every state file of `s0` except the
version-index file `versions.json`, which the restore rewrites: the state
files excluding the index — and hence their hash — round-trip exactly, the
recorded hash of `v1` is the hash of `s0`'s files, and the snapshot taken
immediately after the restore records the hash of the restored files (which
differs from `v1`'s recorded hash only through `versions.json`; the full
hashes do differ, see the counterexample). -/
theorem restore_roundtrip_modulo_index (s0 : StateManager)
    (label label2 : Option String) (inc inc2 : String)
    (md md2 : List (String × String)) (s2 : StateManager)
    (hnodup : (s0.stateFiles.map Prod.fst).Nodup)
    (hfresh : s0.snapshots.lookup
        ("v" ++ increment_version s0.current_version inc) = none)
    (hnover : s0.versions.find?
        (fun v => v.version = increment_version s0.current_version inc) = none)
    (hnocol : increment_version (increment_version s0.current_version inc) "patch"
        ≠ increment_version s0.current_version inc)
    (hres : restore_snapshot (create_snapshot s0 label inc md).2
        (increment_version s0.current_version inc) = (true, s2)) :
    nonIndexFiles s2.stateFiles = nonIndexFiles s0.stateFiles
    ∧ hashFiles (nonIndexFiles s2.stateFiles)
        = hashFiles (nonIndexFiles s0.stateFiles)
    ∧ (((create_snapshot s0 label inc md).2.versions.find?
        (fun v => v.version = increment_version s0.current_version inc)).map
          (fun e => e.state_hash)) = some (hashFiles s0.stateFiles)
    ∧ ((create_snapshot s2 label2 inc2 md2).2.versions.getLast?).map
        (fun e => e.state_hash) = some (hashFiles s2.stateFiles) := by
  have hfind : (create_snapshot s0 label inc md).2.versions.find?
      (fun v => v.version = increment_version s0.current_version inc)
      = some { version := increment_version s0.current_version inc,
               label := label, timestamp := s0.clock, increment_type := inc,
               state_hash := hashFiles s0.stateFiles,
               file_count := s0.stateFiles.length, metadata := md,
               snapshot_dir := "v" ++ increment_version s0.current_version inc } := by
    rw [create_snapshot_versions, List.find?_append, hnover]
    simp [List.find?]
  have hlook1 : (create_snapshot s0 label inc md).2.snapshots.lookup
      ("v" ++ increment_version s0.current_version inc)
      = some s0.stateFiles := by
    rw [create_snapshot_snapshots, lookup_setAssoc_self,
      lookupD_of_none _ _ _ hfresh, overwriteInto_nil _ hnodup]
  have hdirne : ("v" ++ increment_version s0.current_version inc)
      ≠ ("v" ++ increment_version
          (increment_version s0.current_version inc) "patch") := by
    intro hcontra
    exact hnocol (string_append_left_cancel "v" _ _ hcontra).symm
  have hdir2 : lookupD (create_snapshot (create_snapshot s0 label inc md).2
      (some ("Before restore to v" ++ increment_version s0.current_version inc))
      "patch" []).2.snapshots
      ("v" ++ increment_version s0.current_version inc) [] = s0.stateFiles := by
    rw [create_snapshot_snapshots, create_snapshot_current_version]
    rw [lookupD_setAssoc_ne _ _ _ _ _ hdirne]
    exact lookupD_of_some _ _ _ _ hlook1
  rw [restore_snapshot] at hres
  simp only [hfind] at hres
  have hsome : (((create_snapshot s0 label inc md).2.snapshots).lookup
      ("v" ++ increment_version s0.current_version inc)).isSome = true := by
    rw [hlook1]; rfl
  rw [if_pos hsome] at hres
  rw [hdir2, overwriteInto_nil _ hnodup] at hres
  have hsf : s2.stateFiles = setAssoc s0.stateFiles "versions.json"
      (encodeVersionsJson (increment_version s0.current_version inc)
        (create_snapshot (create_snapshot s0 label inc md).2
          (some ("Before restore to v" ++ increment_version s0.current_version inc))
          "patch" []).2.versions
        (create_snapshot (create_snapshot s0 label inc md).2
          (some ("Before restore to v" ++ increment_version s0.current_version inc))
          "patch" []).2.clock) := by
    have h2 := congrArg (fun p => p.2.stateFiles) hres
    exact h2.symm
  have hni : nonIndexFiles s2.stateFiles = nonIndexFiles s0.stateFiles := by
    rw [hsf, nonIndexFiles_setAssoc]
  refine ⟨hni, congrArg hashFiles hni, ?_,
    create_snapshot_last_entry s2 label2 inc2 md2⟩
  rw [hfind]
  rfl

set_option maxHeartbeats 2000000 in
/-- C3 witness: the concrete round trip over one application state file; the
restored state agrees with the original on the non-index files, hence their
hashes agree there. -/
theorem restore_roundtrip_modulo_index_witness :
    nonIndexFiles ((restore_snapshot c3_s1 "1.0.1").2).stateFiles
        = nonIndexFiles sm_app.stateFiles
    ∧ hashFiles (nonIndexFiles ((restore_snapshot c3_s1 "1.0.1").2).stateFiles)
        = hashFiles (nonIndexFiles sm_app.stateFiles) := by
  have h := restore_roundtrip_modulo_index sm_app none none "patch" "patch" [] []
    ((restore_snapshot c3_s1 "1.0.1").2) (by decide) (by decide) (by decide)
    (by decide) (by rfl)
  exact ⟨h.1, h.2.1⟩
